import Mathlib

/-!
Shallow embedding of the SEB bank-statement plugin
(src/ofxstatement/plugins/seb.py) together with proofs about its
layout validation, statement-header extraction, record parsing,
configuration resolution and locale-scoped number parsing.

Python exceptions are modelled with an explicit error type carried by
`Except`; process-global locale state is modelled by explicit state
passing.  Cells of the spreadsheet are modelled as scalar values
(absent, text or numeric), which is what `openpyxl` hands to this
code after the `c.value` projections in the source.
-/

namespace SebModel

/-- Python exception kinds raised by the embedded code: `AssertionError`
(from `assert`), `TypeError` (e.g. `re.match` on a non-string),
`ValueError` (raised by `validate`, `strptime` and `parse_bool`),
`IndexError` (list indexing) and `locale.Error`. -/
inductive PyErr where
  | assertionError
  | typeError
  | valueError
  | indexError
  | localeError
deriving DecidableEq

instance {ε α : Type} [DecidableEq ε] [DecidableEq α] : DecidableEq (Except ε α) := fun a b =>
  match a, b with
  | .ok x, .ok y =>
      if h : x = y then .isTrue (by rw [h]) else .isFalse (by intro hh; cases hh; exact h rfl)
  | .ok _, .error _ => .isFalse (by intro hh; cases hh)
  | .error _, .ok _ => .isFalse (by intro hh; cases hh)
  | .error e, .error f =>
      if h : e = f then .isTrue (by rw [h]) else .isFalse (by intro hh; cases hh; exact h rfl)

/-- A scalar spreadsheet cell value as delivered by the external
spreadsheet library after the `c.value` projection: absent (`None`),
a text cell, or a numeric cell. -/
inductive Cell where
  | none
  | str (s : String)
  | num (q : Rat)
deriving DecidableEq

/-- One raw spreadsheet row: the ordered list of its scalar cell values. -/
abbrev RawRow := List Cell

/-- A worksheet: the grid of scalar cell values, row by row. -/
abbrev Worksheet := List RawRow

/-- A calendar date, the relevant content of a Python `datetime`
produced by `datetime.strptime` (the time-of-day part is always
midnight here and is omitted). -/
structure Date where
  year : Nat
  month : Nat
  day : Nat
deriving DecidableEq

/-- Truth of `pyAssert p` mirrors a Python `assert`: continue on success,
raise `AssertionError` otherwise. -/
def pyAssert (p : Prop) [Decidable p] : Except PyErr Unit :=
  if p then .ok () else .error .assertionError

/-- Models Python list indexing `l[i]` for non-negative `i`:
the element, or `IndexError` when out of range. -/
def pyGet (l : List Cell) (i : Nat) : Except PyErr Cell :=
  match l[i]? with
  | some c => .ok c
  | Option.none => .error .indexError

/-- Numeric value of a decimal digit character. -/
def dval (c : Char) : Nat := c.toNat - 48

/-- Gregorian leap-year test, as used by Python `datetime`. -/
def isLeap (y : Nat) : Bool := (y % 4 = 0 && y % 100 != 0) || y % 400 = 0

/-- Number of days in a month, as validated by the Python `datetime`
constructor. -/
def daysInMonth (y m : Nat) : Nat :=
  if m = 2 then (if isLeap y then 29 else 28)
  else if m = 4 ∨ m = 6 ∨ m = 9 ∨ m = 11 then 30
  else 31

/-- Models the Python `datetime(year, month, day)` constructor checks:
`MINYEAR ≤ year ≤ MAXYEAR`, a real month and a day that exists in that
month; otherwise `ValueError`. -/
def mkDate (y m d : Nat) : Except PyErr Date :=
  if 1 ≤ y ∧ y ≤ 9999 ∧ 1 ≤ m ∧ m ≤ 12 ∧ 1 ≤ d ∧ d ≤ daysInMonth y m
  then .ok ⟨y, m, d⟩ else .error .valueError

/-- Month token of the `%m` directive of Python `strptime`
(regular expression `1[0-2]|0[1-9]|[1-9]`, one or two digits). -/
def monthOfChars : List Char → Option Nat
  | [c] => if '1' ≤ c ∧ c ≤ '9' then some (dval c) else none
  | ['1', c] => if '0' ≤ c ∧ c ≤ '2' then some (10 + dval c) else none
  | ['0', c] => if '1' ≤ c ∧ c ≤ '9' then some (dval c) else none
  | _ => none

/-- Day token of the `%d` directive of Python `strptime`
(regular expression `3[01]|[12]\d|0[1-9]|[1-9]`, one or two digits). -/
def dayOfChars : List Char → Option Nat
  | [c] => if '1' ≤ c ∧ c ≤ '9' then some (dval c) else none
  | ['3', c] => if c = '0' ∨ c = '1' then some (30 + dval c) else none
  | ['0', c] => if '1' ≤ c ∧ c ≤ '9' then some (dval c) else none
  | [a, c] => if (a = '1' ∨ a = '2') ∧ c.isDigit then some (dval a * 10 + dval c) else none
  | _ => none

/-- Shared `-%m-%d` tail of the two date formats used by the source:
a month token, a literal dash, then a day token that must reach the
end of the string (Python `strptime` rejects unconverted trailing
data), followed by the `datetime` constructor checks. -/
def mdTail (y : Nat) (rest : List Char) : Except PyErr Date :=
  let mtok := rest.takeWhile (fun c => c != '-')
  match monthOfChars mtok, rest.drop mtok.length with
  | some m, '-' :: dtok =>
      match dayOfChars dtok with
      | some d => mkDate y m d
      | Option.none => .error .valueError
  | _, _ => .error .valueError

/-- Models `datetime.strptime(s, "%Y-%m-%d")`, the `date_format` of
`SebStatementParser`: a four-digit year, a dash, then the shared
month/day tail; `ValueError` on any mismatch. -/
def strptimeYMD (s : String) : Except PyErr Date :=
  match s.data with
  | y1 :: y2 :: y3 :: y4 :: '-' :: rest =>
      if y1.isDigit ∧ y2.isDigit ∧ y3.isDigit ∧ y4.isDigit then
        mdTail (dval y1 * 1000 + dval y2 * 100 + dval y3 * 10 + dval y4) rest
      else .error .valueError
  | _ => .error .valueError

/-- Models `datetime.strptime(s, "%y-%m-%d")` used for the embedded
card date: a two-digit year (00-68 maps to 2000-2068, 69-99 to
1969-1999, as in Python `_strptime`), a dash, then the shared
month/day tail. -/
def strptimeYY (s : String) : Except PyErr Date :=
  match s.data with
  | y1 :: y2 :: '-' :: rest =>
      if y1.isDigit ∧ y2.isDigit then
        let yy := dval y1 * 10 + dval y2
        mdTail (if yy ≤ 68 then 2000 + yy else 1900 + yy) rest
      else .error .valueError
  | _ => .error .valueError

/-- Translation of `parse_bool` from the source: the literal tokens
`True`, `true`, `1` map to true, `False`, `false`, `0` map to false,
anything else raises `ValueError`. -/
def parse_bool (v : String) : Except PyErr Bool :=
  if v = "True" ∨ v = "true" ∨ v = "1" then .ok true
  else if v = "False" ∨ v = "false" ∨ v = "0" then .ok false
  else .error .valueError

/-- A value stored in the keyword-argument dictionary built by
`SebPlugin.get_parser`: the Python code can put either a string (the
`sv_SE` default) or a boolean (a `parse_bool` result) there. -/
inductive SettingVal where
  | str (s : String)
  | bool (b : Bool)
deriving DecidableEq

/-- The keyword arguments `SebPlugin.get_parser` passes to the parser
constructor: `locale` is always present (default `sv_SE`), `brief` is
present only when the settings supply it. -/
structure KwArgs where
  locale : SettingVal
  brief : Option Bool
deriving DecidableEq

/-- The `brief` branch of `SebPlugin.get_parser`: when the settings
contain a `brief` key its value goes through `parse_bool`. -/
def briefStep (settings : List (String × String)) (kw : KwArgs) : Except PyErr KwArgs :=
  match settings.lookup "brief" with
  | some v =>
      match parse_bool v with
      | .error e => .error e
      | .ok b => .ok { kw with brief := some b }
  | Option.none => .ok kw

/-- Translation of the keyword-argument resolution in
`SebPlugin.get_parser`: start from `{locale: "sv_SE"}`; when the
settings mapping is truthy, a `locale` key is passed through
`parse_bool` (exactly as written in the source) and a `brief` key is
passed through `parse_bool`. -/
def get_parser_kwargs (settings : List (String × String)) : Except PyErr KwArgs :=
  if settings.isEmpty then .ok { locale := SettingVal.str "sv_SE", brief := none }
  else
    match settings.lookup "locale" with
    | some v =>
        match parse_bool v with
        | .error e => .error e
        | .ok b => briefStep settings { locale := SettingVal.bool b, brief := none }
    | Option.none => briefStep settings { locale := SettingVal.str "sv_SE", brief := none }

example : parse_bool "true" = .ok true := by decide
example : parse_bool "sv_SE" = .error .valueError := by decide
example : get_parser_kwargs [("locale", "sv_SE")] = .error .valueError := by decide

/-- ASCII word character, the relevant fragment of the `\w` class used
by the account-id pattern (the header cell of the fixed layout is
ASCII; both the validator and the extractor use this same matcher, so
the restriction is shared by both sides). -/
def isWordCh (c : Char) : Bool := c.isAlphanum || c == '_'

/-- Whitespace characters of the regular-expression `\s` class. -/
def isSpaceCh (c : Char) : Bool :=
  c == ' ' || c == '\t' || c == '\n' || c == '\r' || c == '\x0b' || c == '\x0c'

/-- Models `re.match` of the account-id pattern
`^\w+\s\(([0-9\s]+)\)$` from the source, returning the single
captured group: one or more word characters, one whitespace, a
literal opening parenthesis, one or more digits or whitespace (the
group), a closing parenthesis, then the end of the string (a single
final newline is also accepted by an unanchored `$`).  The character
classes are disjoint from their successors, so the greedy quantifiers
are deterministic maximal munches. -/
def matchAccount (s : String) : Option String :=
  let cs := s.data
  let w := cs.takeWhile isWordCh
  if w.isEmpty then none
  else
    match cs.drop w.length with
    | sp :: '(' :: rest =>
        if isSpaceCh sp then
          let g := rest.takeWhile (fun c => c.isDigit || isSpaceCh c)
          if g.isEmpty then none
          else
            match rest.drop g.length with
            | [')'] => some ⟨g⟩
            | [')', '\n'] => some ⟨g⟩
            | _ => none
        else none
    | _ => none

example : matchAccount "Privatkonto (1234 567 890)" = some "1234 567 890" := by decide
example : matchAccount "Privatkonto 1234" = none := by decide

/-- Shape of the second capture group `[0-9]{2}-[0-9]{2}-[0-9]{2}` of
the card-date suffix pattern: eight characters, two digit pairs and a
final digit pair separated by dashes. -/
def isDateShape (l : List Char) : Bool :=
  match l with
  | [a, b, c, d, e, f, g, h2] =>
      a.isDigit && b.isDigit && (c == '-') && d.isDigit && e.isDigit &&
        (f == '-') && g.isDigit && h2.isDigit
  | _ => false

/-- Handling of an unanchored `$`: it matches at the end of the string
or just before one final newline, so one trailing newline is ignored. -/
def stripNL (cs : List Char) : List Char :=
  if cs.getLast? = some '\n' then cs.dropLast else cs

/-- Core of the card-date pattern on the character list: the date
group has fixed width 8 and is anchored at the end, so the slash can
only sit nine characters from the end, and the greedy `(.*)` — which
cannot cross a newline — is everything before it. -/
def cardCore (cs : List Char) : Option (String × String) :=
  if cs.length < 9 then none
  else
    match cs.drop (cs.length - 9) with
    | '/' :: dcs =>
        if isDateShape dcs && (cs.take (cs.length - 9)).all (fun c => c != '\n')
        then some (⟨cs.take (cs.length - 9)⟩, ⟨dcs⟩)
        else none
    | _ => none

/-- Models `re.match` of the card-date pattern
`(.*)/([0-9]{2}-[0-9]{2}-[0-9]{2})$` from `parse_record`, returning
the two capture groups (`re.match` anchors at the start). -/
def cardPattern (s : String) : Option (String × String) :=
  cardCore (stripNL s.data)

example : cardPattern "WIRSTRÖMS PU/14-12-31" = some ("WIRSTRÖMS PU", "14-12-31") := by decide
example : cardPattern "ICA SUPERMARKET" = none := by decide
example : cardPattern "A/14-01-01/14-12-31" = some ("A/14-01-01", "14-12-31") := by decide

/-- The statement-level summary produced once per file: the fields of
the external `Statement` object that `parse_statement` fills in. -/
structure Statement where
  account_id : String
  bank_id : String
  currency : String
deriving DecidableEq

/-- The fields of the external `StatementLine` object that
`parse_record` fills in (all start out as `None`/empty). -/
structure StatementLine where
  date : Option Date := none
  date_user : Option Date := none
  refnum : Cell := .none
  memo : Cell := .none
  amount : Cell := .none
  id : String := ""
deriving DecidableEq

/-- Models the external `ofxstatement.statement.generate_transaction_id`:
a deterministic fingerprint of the line's date, memo and amount
fields (the exact hash is not load-bearing; a field-separated
encoding stands in for it). -/
def cellKey : Cell → String
  | .none => "None"
  | .str s => s
  | .num q => toString q.num ++ "/" ++ toString q.den

/-- Encoding of an optional date used by the transaction-id fingerprint. -/
def dateKey : Option Date → String
  | Option.none => "None"
  | some d => toString d.year ++ "-" ++ toString d.month ++ "-" ++ toString d.day

/-- Deterministic transaction identifier, a stand-in for the external
hash over the line's date, memo and amount. -/
def generate_transaction_id (date : Option Date) (memo amount : Cell) : String :=
  dateKey date ++ "|" ++ cellKey memo ++ "|" ++ cellKey amount

/-- Models `StatementParser.parse_datetime` of the external
`ofxstatement` base class: `datetime.strptime(value, self.date_format)`
with `date_format = "%Y-%m-%d"`; `strptime` raises `TypeError` on a
non-string argument. -/
def parse_datetime (c : Cell) : Except PyErr Date :=
  match c with
  | .str s => strptimeYMD s
  | _ => .error .typeError

/-- Builds the successful result of `parse_record` from the parsed
fields, attaching the generated transaction id. -/
def mkLine (d : Date) (du : Option Date) (refnum memo amount : Cell) : StatementLine :=
  { date := some d, date_user := du, refnum := refnum, memo := memo, amount := amount,
    id := generate_transaction_id (some d) memo amount }

/-- Translation of `SebStatementParser.parse_record`: keep the first
five cells; parse cell 0 as the transaction date; parse cell 1 as a
date and discard the result; copy cells 2, 3, 4 verbatim as
reference, memo and amount; if the memo matches the card-date suffix
pattern, parse the suffix with `%y-%m-%d` into `date_user` and, in
brief mode only, replace the memo with the first capture group;
finally attach the generated id. -/
def parse_record (brief : Bool) (row0 : List Cell) : Except PyErr StatementLine :=
  let row := row0.take 5
  match pyGet row 0 with
  | .error e => .error e
  | .ok c0 =>
    match parse_datetime c0 with
    | .error e => .error e
    | .ok d =>
      match pyGet row 1 with
      | .error e => .error e
      | .ok c1 =>
        match parse_datetime c1 with
        | .error e => .error e
        | .ok _ =>
          match pyGet row 2 with
          | .error e => .error e
          | .ok refnum =>
            match pyGet row 3 with
            | .error e => .error e
            | .ok memoC =>
              match pyGet row 4 with
              | .error e => .error e
              | .ok amount =>
                match memoC with
                | .str memoS =>
                    match cardPattern memoS with
                    | some (card_memo, card_date) =>
                        match strptimeYY card_date with
                        | .error e => .error e
                        | .ok du =>
                            .ok (mkLine d (some du) refnum
                              (if brief then Cell.str card_memo else memoC) amount)
                    | Option.none => .ok (mkLine d none refnum memoC amount)
                | _ => .error .typeError

/-- The six fixed Swedish column headers checked in row index 7. -/
def headerLabels : List Cell :=
  [.str "Bokföringsdatum", .str "Valutadatum", .str "Verifikationsnummer",
   .str "Text", .str "Belopp", .str "Saldo"]

/-- Models `re.match` of the account pattern applied to a cell value:
a `TypeError` when the value is not a string (in particular for an
absent `None` cell), otherwise the optional match. -/
def reMatchAccount (c : Cell) : Except PyErr (Option String) :=
  match c with
  | .str s => .ok (matchAccount s)
  | _ => .error .typeError

/-- Translation of `SebStatementParser._validate`, the flat assertion
chain over the first eight rows: exactly eight rows, six cells per
row, the account row (index 4) matches the account pattern and ends
in two absent cells, row index 5 is entirely absent, and row index 7
is exactly the fixed header labels.  Each failed `assert` raises
`AssertionError`; the `re.match` on a non-string account cell raises
`TypeError` instead. -/
def validateChecks (ws : Worksheet) : Except PyErr Unit :=
  let rows := ws.take 8
  if rows.length = 8 then
    if ∀ row ∈ rows, row.length = 6 then
      match pyGet (rows.getD 4 []) 0 with
      | .error e => .error e
      | .ok c =>
        match reMatchAccount c with
        | .error e => .error e
        | .ok m =>
          if m.isSome then
            if (rows.getD 4 []).drop 4 = [Cell.none, Cell.none] then
              if rows.getD 5 [] = List.replicate 6 Cell.none then
                if rows.getD 7 [] = headerLabels then .ok ()
                else .error .assertionError
              else .error .assertionError
            else .error .assertionError
          else .error .assertionError
    else .error .assertionError
  else .error .assertionError

/-- Translation of `SebStatementParser.validate`: run the assertion
chain and convert an `AssertionError` into a `ValueError` (the
structural-format error); any other exception propagates unchanged. -/
def validate (ws : Worksheet) : Except PyErr Unit :=
  match validateChecks ws with
  | .error .assertionError => .error .valueError
  | r => r

/-- Translation of `SebStatementParser.parse_statement`: re-read the
first eight rows, assert there are eight (a bare assert, not
converted), re-match the account pattern on the first cell of row
index 4 (`TypeError` if that cell is not a string, and `TypeError`
again when subscripting a failed match), and build the statement with
the captured group, bank id `SEB` and currency `SEK`. -/
def parse_statement (ws : Worksheet) : Except PyErr Statement :=
  let rows := ws.take 8
  if rows.length = 8 then
    match pyGet (rows.getD 4 []) 0 with
    | .error e => .error e
    | .ok c =>
      match reMatchAccount c with
      | .error e => .error e
      | .ok (some g) => .ok { account_id := g, bank_id := "SEB", currency := "SEK" }
      | .ok Option.none => .error .typeError
  else .error .assertionError

/-- Translation of `SebStatementParser.split_records`: skip the first
eight (header) rows and yield the scalar cell values of every
subsequent row (the worksheet model already holds scalar values, so
the per-cell projection is the identity). -/
def split_records (ws : Worksheet) : List RawRow := ws.drop 8

/-- Models the record loop of the external
`ofxstatement.parser.StatementParser.parse`: convert each raw row
with `parse_record`, aborting on the first failure. -/
def parse_lines (brief : Bool) : List RawRow → Except PyErr (List StatementLine)
  | [] => .ok []
  | r :: rs =>
      match parse_record brief r with
      | .error e => .error e
      | .ok line =>
        match parse_lines brief rs with
        | .error e => .error e
        | .ok lines => .ok (line :: lines)

/-- All transaction records of a worksheet: the record loop applied to
the stream produced by `split_records`. -/
def parse_records (brief : Bool) (ws : Worksheet) : Except PyErr (List StatementLine) :=
  parse_lines brief (split_records ws)

/-- The state of a constructed `SebStatementParser` (the workbook
itself is kept by the caller; configuration and the parsed statement
summary are what the constructor produces). -/
structure SebParser where
  locale : SettingVal
  brief : Bool
  statement : Statement
deriving DecidableEq

/-- Translation of `SebStatementParser.__init__` minus the file I/O:
validate the worksheet, then parse the statement summary; any raised
error aborts construction and no summary object is produced. -/
def seb_init (ws : Worksheet) (loc : SettingVal) (brief : Bool) : Except PyErr SebParser :=
  match validate ws with
  | .error e => .error e
  | .ok _ =>
    match parse_statement ws with
    | .error e => .error e
    | .ok st => .ok { locale := loc, brief := brief, statement := st }

/-- Process-wide numeric-locale state: the set of locales installed on
the host and the currently active `LC_NUMERIC` locale. -/
structure LocaleEnv where
  installed : List String
  numeric : String
deriving DecidableEq

/-- Models `locale.setlocale(LC_NUMERIC, loc)`: activates the locale
and returns its name, or raises `locale.Error` when the host does not
have it (state unchanged in that case). -/
def setlocaleN (loc : String) (env : LocaleEnv) : Except PyErr (String × LocaleEnv) :=
  if loc ∈ env.installed then .ok (loc, { env with numeric := loc })
  else .error .localeError

/-- Models `locale.getlocale(LC_NUMERIC)`: reads the active numeric
locale without changing it. -/
def getlocaleN (env : LocaleEnv) : String := env.numeric

/-- Decimal-point character of a locale, the fragment of the external
`locale` conventions that `locale.atof` consumes. -/
def decimalPoint (loc : String) : Char :=
  if loc = "sv_SE" ∨ loc = "sv_SE.UTF-8" ∨ loc = "de_DE" then ',' else '.'

/-- Thousands-separator character of a locale (Swedish groups with a
space), removed by `locale.delocalize` before conversion. -/
def thousandsSep (loc : String) : Option Char :=
  if loc = "sv_SE" ∨ loc = "sv_SE.UTF-8" then some ' '
  else if loc = "de_DE" then some '.' else none

/-- Value of a list of decimal digits. -/
def digitsVal (cs : List Char) : Nat := cs.foldl (fun a c => a * 10 + dval c) 0

/-- Models the core of Python `float(s)` on a plain decimal numeral:
an optional sign, an integer part and an optional fractional part,
with at least one digit overall; `ValueError` otherwise (exotic float
syntax is out of scope for this code path). -/
def parseFloatStr (s : String) : Except PyErr Rat :=
  let cs0 := s.data
  let signed := match cs0 with
    | '-' :: t => (true, t)
    | '+' :: t => (false, t)
    | t => (false, t)
  let cs := signed.2
  let ip := cs.takeWhile Char.isDigit
  match cs.drop ip.length with
  | [] =>
      if ip.isEmpty then .error .valueError
      else .ok (if signed.1 then -(digitsVal ip : Rat) else (digitsVal ip : Rat))
  | '.' :: fp =>
      if fp.all Char.isDigit && !(ip.isEmpty && fp.isEmpty) then
        let v : Rat := (digitsVal ip : Rat) + (digitsVal fp : Rat) / ((10 : Rat) ^ fp.length)
        .ok (if signed.1 then -v else v)
      else .error .valueError
  | _ => .error .valueError

/-- Models the external `locale.atof(s)` under the active numeric
locale: delocalize (drop the locale's thousands separator, turn its
decimal point into a dot) and convert with `float`. -/
def localeAtof (env : LocaleEnv) (s : String) : Except PyErr Rat :=
  let dp := decimalPoint env.numeric
  let cs := s.data.filter (fun c => thousandsSep env.numeric ≠ some c)
  parseFloatStr ⟨cs.map (fun c => if c = dp then '.' else c)⟩

/-- Translation of `atof` from the source with the `scoped_setlocale`
context manager inlined as explicit state passing: save the current
numeric locale, activate `loc` inside the `try`, run `locale.atof`,
and in the `finally` restore the saved locale — both when the
activation fails and when conversion finishes, successfully or not. -/
def atof (s : String) (loc : String) (env : LocaleEnv) : Except PyErr Rat × LocaleEnv :=
  let orig := getlocaleN env
  match setlocaleN loc env with
  | .error e =>
      match setlocaleN orig env with
      | .ok (_, env2) => (.error e, env2)
      | .error e2 => (.error e2, env)
  | .ok (_, env1) =>
      let r := localeAtof env1 s
      match setlocaleN orig env1 with
      | .ok (_, env2) => (r, env2)
      | .error e2 => (.error e2, env1)

/-- Constructor test for an `Except` result, mirroring the question
whether the Python call returned normally or raised. -/
def pyOk {α : Type} (e : Except PyErr α) : Bool :=
  match e with
  | .ok _ => true
  | .error _ => false

example : pyOk (atof "1 234,50" "sv_SE" ⟨["C", "sv_SE"], "C"⟩).1 = true := by decide
example : pyOk (atof "x" "sv_SE" ⟨["C", "sv_SE"], "C"⟩).1 = false := by decide
example : (atof "1 234,50" "sv_SE" ⟨["C", "sv_SE"], "C"⟩).2 = ⟨["C", "sv_SE"], "C"⟩ := by decide
example : (atof "x" "sv_SE" ⟨["C", "sv_SE"], "C"⟩).2 = ⟨["C", "sv_SE"], "C"⟩ := by decide
example : (atof "1.5" "nb_NO" ⟨["C", "sv_SE"], "C"⟩).2 = ⟨["C", "sv_SE"], "C"⟩ := by decide

/-- A well-formed account header row for the concrete test worksheets. -/
def accountRow : RawRow :=
  [Cell.str "Privatkonto (1234 567 890)", .none, .none, .none, .none, .none]

/-- A concrete worksheet with the exact fixed eight-row preamble. -/
def wsGood : Worksheet :=
  [List.replicate 6 Cell.none, List.replicate 6 Cell.none, List.replicate 6 Cell.none,
   List.replicate 6 Cell.none, accountRow, List.replicate 6 Cell.none,
   List.replicate 6 Cell.none, headerLabels]

/-- A concrete data row with a plain memo and no embedded card date. -/
def dataRow : RawRow :=
  [Cell.str "2014-12-31", .str "2014-12-30", .str "REF", .str "ICA SUPERMARKET",
   .num 5, .num 100]

/-- The good preamble followed by one data row. -/
def wsGood9 : Worksheet := wsGood ++ [dataRow]

example : validate wsGood = .ok () := by decide
example : validate wsGood9 = .ok () := by decide
example : parse_statement wsGood = .ok ⟨"1234 567 890", "SEB", "SEK"⟩ := by decide

/-- A preamble whose account row has an absent first cell while rows 5
and 7 also violate the layout: exercises the type-error path. -/
def wsNoneAccount : Worksheet :=
  [List.replicate 6 Cell.none, List.replicate 6 Cell.none, List.replicate 6 Cell.none,
   List.replicate 6 Cell.none, List.replicate 6 Cell.none,
   [Cell.str "x", .none, .none, .none, .none, .none],
   List.replicate 6 Cell.none, List.replicate 6 Cell.none]

example : validate wsNoneAccount = .error .typeError := by decide

/-- A preamble with an absent account cell but otherwise good rows 5
and 7: the witness input for the type-error claim. -/
def wsNoneAccount2 : Worksheet :=
  [List.replicate 6 Cell.none, List.replicate 6 Cell.none, List.replicate 6 Cell.none,
   List.replicate 6 Cell.none, List.replicate 6 Cell.none, List.replicate 6 Cell.none,
   List.replicate 6 Cell.none, headerLabels]

example : validate wsNoneAccount2 = .error .typeError := by decide

/-- A worksheet with only seven rows: too short for the fixed layout. -/
def wsShort : Worksheet := List.replicate 7 (List.replicate 6 Cell.none)

example : validate wsShort = .error .valueError := by decide

/-- A concrete data row whose memo carries the embedded card date of
the worked example in the source comment. -/
def rowWir : RawRow :=
  [Cell.str "2014-12-31", .str "2014-12-30", .str "REF1", .str "WIRSTRÖMS PU/14-12-31",
   .num 5, .num 100]

example :
    parse_record true rowWir =
      .ok (mkLine ⟨2014, 12, 31⟩ (some ⟨2014, 12, 31⟩) (.str "REF1")
        (.str "WIRSTRÖMS PU") (.num 5)) := by decide

/-- A data row whose memo matches the card pattern with an impossible
calendar date (month 13): the record parse fails as a whole. -/
def rowBadSuffix : RawRow :=
  [Cell.str "2014-12-31", .str "2014-12-30", .str "R", .str "A/14-13-31", .num 5, .num 100]

example : parse_record true rowBadSuffix = .error .valueError := by decide

/-- A data row whose memo holds two embedded card dates. -/
def rowTwoDates : RawRow :=
  [Cell.str "2014-12-31", .str "2014-12-30", .str "R", .str "A/14-01-01/14-12-31",
   .num 5, .num 100]

/-- A data row whose memo holds two card-date shaped suffixes with the
final one an impossible calendar date. -/
def rowTwoDatesBad : RawRow :=
  [Cell.str "2014-12-31", .str "2014-12-30", .str "R", .str "A/14-01-01/14-13-31",
   .num 5, .num 100]

example :
    parse_record true rowTwoDates =
      .ok (mkLine ⟨2014, 12, 31⟩ (some ⟨2014, 12, 31⟩) (.str "R")
        (.str "A/14-01-01") (.num 5)) := by decide
example : parse_record true rowTwoDatesBad = .error .valueError := by decide

/-- Helper: a successful run of the record loop yields exactly one
statement line per raw row. -/
theorem parse_lines_length (b : Bool) :
    ∀ (l : List RawRow) (out : List StatementLine),
      parse_lines b l = .ok out → out.length = l.length := by
  intro l
  induction l with
  | nil =>
      intro out h
      simp only [parse_lines] at h
      cases h
      rfl
  | cons r rs ih =>
      intro out h
      simp only [parse_lines] at h
      cases hr : parse_record b r with
      | error e => rw [hr] at h; cases h
      | ok line =>
          rw [hr] at h
          cases hl : parse_lines b rs with
          | error e => rw [hl] at h; cases h
          | ok lines =>
              rw [hl] at h
              cases h
              simp [ih lines hl]

/-- C6: `parse_bool` maps exactly the tokens `True`, `true`, `1` to
true and exactly `False`, `false`, `0` to false, and raises a
configuration error (`ValueError`) for every other input value. -/
theorem seb_parse_bool_tokens (v : String) :
    (parse_bool v = .ok true ↔ (v = "True" ∨ v = "true" ∨ v = "1")) ∧
    (parse_bool v = .ok false ↔ (v = "False" ∨ v = "false" ∨ v = "0")) ∧
    (parse_bool v = .error .valueError ↔
      ¬(v = "True" ∨ v = "true" ∨ v = "1" ∨ v = "False" ∨ v = "false" ∨ v = "0")) := by
  by_cases h1 : v = "True" ∨ v = "true" ∨ v = "1"
  · rcases h1 with rfl | rfl | rfl <;> decide
  · by_cases h2 : v = "False" ∨ v = "false" ∨ v = "0"
    · rcases h2 with rfl | rfl | rfl <;> decide
    · simp only [parse_bool, if_neg h1, if_neg h2]
      refine ⟨by simp [h1], by simp [h2], ?_⟩
      constructor
      · intro _ hc
        rcases hc with h | h | h | h | h | h
        · exact h1 (Or.inl h)
        · exact h1 (Or.inr (Or.inl h))
        · exact h1 (Or.inr (Or.inr h))
        · exact h2 (Or.inl h)
        · exact h2 (Or.inr (Or.inl h))
        · exact h2 (Or.inr (Or.inr h))
      · intro _
        trivial

/-- C1 (code bug): `SebPlugin.get_parser` pipes the `locale` setting
through `parse_bool`, so passing the documented default `sv_SE`
explicitly raises `ValueError`, a boolean token yields a boolean (not
a locale string) in the `locale` keyword argument, and only the
absent-settings path produces the `sv_SE` string default. -/
theorem seb_plugin_locale_parse_bool_bug :
    get_parser_kwargs [("locale", "sv_SE")] = .error .valueError ∧
    get_parser_kwargs [("locale", "true")] = .ok ⟨SettingVal.bool true, none⟩ ∧
    get_parser_kwargs [] = .ok ⟨SettingVal.str "sv_SE", none⟩ := by
  decide

/-- C8: `atof` restores the process's prior numeric locale after the
call, for every input string and requested locale, regardless of
whether locale activation or parsing succeeds or fails (the active
locale of a well-formed state is itself installed, so the `finally`
restore succeeds). -/
theorem seb_atof_restores_numeric_locale (s loc : String) (env : LocaleEnv)
    (h : env.numeric ∈ env.installed) :
    (atof s loc env).2 = env := by
  obtain ⟨ins, cur⟩ := env
  simp only [LocaleEnv.numeric, LocaleEnv.installed] at h
  by_cases hl : loc ∈ ins <;>
    simp [atof, getlocaleN, setlocaleN, hl, h]

/-- Witness for C8 at a concrete locale state, string and locale. -/
theorem seb_atof_restores_numeric_locale_witness :
    ("C" ∈ (⟨["C", "sv_SE"], "C"⟩ : LocaleEnv).installed) ∧
    (atof "1 234,50" "sv_SE" ⟨["C", "sv_SE"], "C"⟩).2 = ⟨["C", "sv_SE"], "C"⟩ :=
  ⟨by decide, seb_atof_restores_numeric_locale "1 234,50" "sv_SE" ⟨["C", "sv_SE"], "C"⟩ (by decide)⟩

/-- C10: on a worksheet with at least eight rows of six cells whose
account row (index 4) has an absent first cell, validation raises
`TypeError` — the `re.match` on the absent value fires before any
assertion fails, and the `AssertionError`-to-`ValueError` conversion
does not cover it. -/
theorem seb_validate_none_account_cell_type_error (ws : Worksheet)
    (h8 : 8 ≤ ws.length)
    (h6 : ∀ row ∈ ws.take 8, row.length = 6)
    (h0 : pyGet ((ws.take 8).getD 4 []) 0 = .ok Cell.none) :
    validate ws = .error .typeError ∧
    (Except.error PyErr.typeError : Except PyErr Unit) ≠ .error .valueError := by
  refine ⟨?_, by decide⟩
  have hlen : (ws.take 8).length = 8 := by
    rw [List.length_take]; omega
  have hvc : validateChecks ws = .error .typeError := by
    unfold validateChecks
    dsimp only
    rw [if_pos hlen, if_pos h6, h0]
    rfl
  simp [validate, hvc]

/-- Witness for C10 at a concrete worksheet whose account cell is absent. -/
theorem seb_validate_none_account_cell_type_error_witness :
    (8 ≤ wsNoneAccount2.length ∧ (∀ row ∈ wsNoneAccount2.take 8, row.length = 6) ∧
      pyGet ((wsNoneAccount2.take 8).getD 4 []) 0 = .ok Cell.none) ∧
    (validate wsNoneAccount2 = .error .typeError ∧
      (Except.error PyErr.typeError : Except PyErr Unit) ≠ .error .valueError) :=
  ⟨⟨by decide, by decide, by decide⟩,
   seb_validate_none_account_cell_type_error wsNoneAccount2 (by decide) (by decide) (by decide)⟩

/-- C7: on an accepted worksheet the splitter yields one raw row per
worksheet row after the fixed eight-row header, and a successful run
of the record loop yields exactly that many transaction records. -/
theorem seb_record_count (b : Bool) (ws : Worksheet)
    (_h : validate ws = .ok ()) :
    (split_records ws).length = ws.length - 8 ∧
    ∀ out, parse_records b ws = .ok out → out.length = ws.length - 8 := by
  have hsplit : (split_records ws).length = ws.length - 8 := by
    simp [split_records]
  refine ⟨hsplit, fun out hout => ?_⟩
  have hlen := parse_lines_length b (split_records ws) out hout
  omega

/-- Witness for C7 at a concrete accepted worksheet with one data row. -/
theorem seb_record_count_witness :
    validate wsGood9 = .ok () ∧
    ((split_records wsGood9).length = wsGood9.length - 8 ∧
      ∀ out, parse_records false wsGood9 = .ok out → out.length = wsGood9.length - 8) :=
  ⟨by decide, seb_record_count false wsGood9 (by decide)⟩

/-- Helper: full inversion of a successful `parse_record` run, centred
on the embedded-date heuristic — the memo cell is a string, and the
produced line reflects the card-pattern match: on a match, `date_user`
holds the `%y-%m-%d` parse of the suffix and the memo is replaced by
the leading capture exactly in brief mode; on no match, the memo is
untouched and no `date_user` is set. -/
theorem parse_record_memo_spec (brief : Bool) (row : List Cell)
    (h : pyOk (parse_record brief row) = true) :
    ∃ memoS line, pyGet (row.take 5) 3 = .ok (Cell.str memoS) ∧
      parse_record brief row = .ok line ∧
      (∀ g1 d, cardPattern memoS = some (g1, d) →
        line.memo = Cell.str (if brief then g1 else memoS) ∧
        ∃ du, strptimeYY d = .ok du ∧ line.date_user = some du) ∧
      (cardPattern memoS = none →
        line.memo = Cell.str memoS ∧ line.date_user = none) := by
  cases e0 : pyGet (row.take 5) 0 with
  | error e => simp [parse_record, e0, pyOk] at h
  | ok c0 =>
  cases e1 : parse_datetime c0 with
  | error e => simp [parse_record, e0, e1, pyOk] at h
  | ok d0 =>
  cases e2 : pyGet (row.take 5) 1 with
  | error e => simp [parse_record, e0, e1, e2, pyOk] at h
  | ok c1 =>
  cases e3 : parse_datetime c1 with
  | error e => simp [parse_record, e0, e1, e2, e3, pyOk] at h
  | ok d1 =>
  cases e4 : pyGet (row.take 5) 2 with
  | error e => simp [parse_record, e0, e1, e2, e3, e4, pyOk] at h
  | ok refnum =>
  cases e5 : pyGet (row.take 5) 3 with
  | error e => simp [parse_record, e0, e1, e2, e3, e4, e5, pyOk] at h
  | ok memoC =>
  cases e6 : pyGet (row.take 5) 4 with
  | error e => simp [parse_record, e0, e1, e2, e3, e4, e5, e6, pyOk] at h
  | ok amount =>
  cases memoC with
  | none => simp [parse_record, e0, e1, e2, e3, e4, e5, e6, pyOk] at h
  | num q => simp [parse_record, e0, e1, e2, e3, e4, e5, e6, pyOk] at h
  | str memoS =>
  cases ecp : cardPattern memoS with
  | none =>
      refine ⟨memoS, mkLine d0 none refnum (Cell.str memoS) amount, rfl, ?_, ?_, ?_⟩
      · simp [parse_record, e0, e1, e2, e3, e4, e5, e6, ecp]
      · intro g1 dd hcp
        rw [ecp] at hcp
        cases hcp
      · intro _
        exact ⟨rfl, rfl⟩
  | some p =>
      obtain ⟨g1, dd⟩ := p
      cases edu : strptimeYY dd with
      | error e => simp [parse_record, e0, e1, e2, e3, e4, e5, e6, ecp, edu, pyOk] at h
      | ok du =>
          refine ⟨memoS,
            mkLine d0 (some du) refnum (if brief then Cell.str g1 else Cell.str memoS) amount,
            rfl, ?_, ?_, ?_⟩
          · simp [parse_record, e0, e1, e2, e3, e4, e5, e6, ecp, edu]
          · intro g1' dd' hcp
            rw [ecp] at hcp
            cases hcp
            constructor
            · cases brief <;> simp [mkLine]
            · exact ⟨du, edu, rfl⟩
          · intro hn
            rw [ecp] at hn
            cases hn

/-- C2 (amended): whenever `parse_record` succeeds, the memo cell was a
string; if it matched the card-date pattern, `date_user` is the
`%y-%m-%d` parse of the suffix (in both brief and non-brief modes)
and the memo is replaced by the leading capture exactly in brief
mode; if it did not match, no `date_user` is set and the memo is
unmodified in either mode. -/
theorem seb_parse_record_memo_heuristic (brief : Bool) (row : List Cell)
    (h : pyOk (parse_record brief row) = true) :
    ∃ memoS line, pyGet (row.take 5) 3 = .ok (Cell.str memoS) ∧
      parse_record brief row = .ok line ∧
      (∀ g1 d, cardPattern memoS = some (g1, d) →
        line.memo = Cell.str (if brief then g1 else memoS) ∧
        ∃ du, strptimeYY d = .ok du ∧ line.date_user = some du) ∧
      (cardPattern memoS = none →
        line.memo = Cell.str memoS ∧ line.date_user = none) :=
  parse_record_memo_spec brief row h

/-- Witness for C2 at the worked example from the source comment:
brief mode on the memo `WIRSTRÖMS PU/14-12-31`. -/
theorem seb_parse_record_memo_heuristic_witness :
    pyOk (parse_record true rowWir) = true ∧
    (∃ memoS line, pyGet (rowWir.take 5) 3 = .ok (Cell.str memoS) ∧
      parse_record true rowWir = .ok line ∧
      (∀ g1 d, cardPattern memoS = some (g1, d) →
        line.memo = Cell.str (if true then g1 else memoS) ∧
        ∃ du, strptimeYY d = .ok du ∧ line.date_user = some du) ∧
      (cardPattern memoS = none →
        line.memo = Cell.str memoS ∧ line.date_user = none)) :=
  ⟨by decide, seb_parse_record_memo_heuristic true rowWir (by decide)⟩

/-- C2 counterexample: the memo `A/14-13-31` matches the card-date
pattern (its suffix is digit-shaped) but month 13 makes `strptime`
raise, so the whole record parse fails in both modes and no
`date_user` is ever set, contradicting the claim as stated. -/
theorem seb_parse_record_memo_cex :
    cardPattern "A/14-13-31" = some ("A", "14-13-31") ∧
    parse_record true rowBadSuffix = .error .valueError ∧
    parse_record false rowBadSuffix = .error .valueError := by
  decide

/-- Helper: a digit character is not a newline. -/
theorem isDigit_ne_newline {c : Char} (h : c.isDigit = true) : c ≠ '\n' := by
  intro hc
  subst hc
  exact absurd h (by decide)

/-- Helper: inversion of the card-date group shape: eight characters,
digits around two dashes. -/
theorem isDateShape_cases (l : List Char) (h : isDateShape l = true) :
    ∃ a b c d e f, l = [a, b, '-', c, d, '-', e, f] ∧
      a.isDigit = true ∧ b.isDigit = true ∧ c.isDigit = true ∧
      d.isDigit = true ∧ e.isDigit = true ∧ f.isDigit = true := by
  rcases l with _ | ⟨a, _ | ⟨b, _ | ⟨c0, _ | ⟨d, _ | ⟨e, _ | ⟨f0, _ | ⟨g, _ | ⟨h2, _ | ⟨i, t⟩⟩⟩⟩⟩⟩⟩⟩⟩ <;>
    simp only [isDateShape, Bool.and_eq_true, beq_iff_eq, Bool.false_eq_true] at h
  obtain ⟨⟨⟨⟨⟨⟨⟨ha, hb⟩, hc⟩, hd'⟩, he⟩, hf⟩, hg⟩, hh2⟩ := h
  subst hc
  subst hf
  exact ⟨a, b, d, e, g, h2, rfl, ha, hb, hd', he, hg, hh2⟩

/-- Helper: the characters of a date-shaped group are digits or
dashes, never a newline. -/
theorem isDateShape_ne_newline {l : List Char} (h : isDateShape l = true) :
    ∀ c ∈ l, c ≠ '\n' := by
  obtain ⟨a, b, c, d, e, f, rfl, ha, hb, hc, hd, he, hf⟩ := isDateShape_cases l h
  intro x hx
  simp only [List.mem_cons, List.not_mem_nil, or_false] at hx
  rcases hx with rfl | rfl | rfl | rfl | rfl | rfl | rfl | rfl
  · exact isDigit_ne_newline ha
  · exact isDigit_ne_newline hb
  · decide
  · exact isDigit_ne_newline hc
  · exact isDigit_ne_newline hd
  · decide
  · exact isDigit_ne_newline he
  · exact isDigit_ne_newline hf

/-- Helper: the card pattern on a newline-free prefix followed by a
slash and a date-shaped eight-character suffix captures exactly that
split — the slash position is forced by the fixed suffix width and
the end anchor. -/
theorem cardCore_append (pre : List Char) (dcs : List Char)
    (hd : isDateShape dcs = true) (hnl : ∀ c ∈ pre, c ≠ '\n') :
    cardCore (stripNL (pre ++ '/' :: dcs)) = some (⟨pre⟩, ⟨dcs⟩) := by
  obtain ⟨a, b, c, d, e, f, rfl, ha, hb, hc, hdd, he, hf⟩ := isDateShape_cases dcs hd
  have hsp : pre ++ '/' :: [a, b, '-', c, d, '-', e, f] =
      (pre ++ ['/', a, b, '-', c, d, '-', e]) ++ [f] := by
    simp
  have hlast : (pre ++ '/' :: [a, b, '-', c, d, '-', e, f]).getLast? = some f := by
    rw [hsp]
    exact List.getLast?_concat _
  have hstrip : stripNL (pre ++ '/' :: [a, b, '-', c, d, '-', e, f]) =
      pre ++ '/' :: [a, b, '-', c, d, '-', e, f] := by
    unfold stripNL
    rw [hlast, if_neg]
    intro hcon
    injection hcon with hcon
    exact isDigit_ne_newline hf hcon
  rw [hstrip]
  have hlen : (pre ++ '/' :: [a, b, '-', c, d, '-', e, f]).length = pre.length + 9 := by
    simp
  have hdrop : (pre ++ '/' :: [a, b, '-', c, d, '-', e, f]).drop pre.length =
      '/' :: [a, b, '-', c, d, '-', e, f] := List.drop_left pre _
  have htake : (pre ++ '/' :: [a, b, '-', c, d, '-', e, f]).take pre.length = pre :=
    List.take_left pre _
  have hall : pre.all (fun x => x != '\n') = true := by
    rw [List.all_eq_true]
    intro x hxm
    exact bne_iff_ne.mpr (hnl x hxm)
  unfold cardCore
  rw [hlen, if_neg (by omega)]
  have h9 : pre.length + 9 - 9 = pre.length := by omega
  rw [h9, hdrop]
  simp only [hd, htake, hall, Bool.and_self, if_pos]

/-- Helper: the card pattern on a memo with two date-shaped suffixes
captures greedily up to the rightmost slash-date. -/
theorem cardPattern_two_dates (g1 d1 d2 : String)
    (hs1 : isDateShape d1.data = true) (hs2 : isDateShape d2.data = true)
    (hnl : ∀ c ∈ g1.data, c ≠ '\n') :
    cardPattern (g1 ++ "/" ++ d1 ++ "/" ++ d2) = some (g1 ++ "/" ++ d1, d2) := by
  have hsd : ("/" : String).data = ['/'] := rfl
  have hdl : (g1 ++ "/" ++ d1 ++ "/" ++ d2).data =
      (g1.data ++ '/' :: d1.data) ++ '/' :: d2.data := by
    simp [String.data_append, hsd]
  have hpre : ∀ c ∈ g1.data ++ '/' :: d1.data, c ≠ '\n' := by
    intro c hcm
    rcases List.mem_append.mp hcm with hcm | hcm
    · exact hnl c hcm
    · rcases List.mem_cons.mp hcm with rfl | hcm
      · decide
      · exact isDateShape_ne_newline hs1 c hcm
  have hmain := cardCore_append (g1.data ++ '/' :: d1.data) d2.data hs2 hpre
  unfold cardPattern
  rw [hdl, hmain]
  have hfst : (⟨g1.data ++ '/' :: d1.data⟩ : String) = g1 ++ "/" ++ d1 := by
    apply String.ext
    simp [String.data_append, hsd]
  rw [hfst]

/-- C9 (amended): a memo of the form `g1/d1/d2` with two date-shaped
slash suffixes is captured greedily up to the last one, so whenever
the record parses, `date_user` is the parse of the final suffix `d2`
and the brief-mode memo `g1/d1` retains the earlier embedded date. -/
theorem seb_card_greedy_last_occurrence (brief : Bool) (row : List Cell)
    (g1 d1 d2 : String)
    (hs1 : isDateShape d1.data = true) (hs2 : isDateShape d2.data = true)
    (hnl : ∀ c ∈ g1.data, c ≠ '\n')
    (hmemo : pyGet (row.take 5) 3 = .ok (Cell.str (g1 ++ "/" ++ d1 ++ "/" ++ d2)))
    (hok : pyOk (parse_record brief row) = true) :
    cardPattern (g1 ++ "/" ++ d1 ++ "/" ++ d2) = some (g1 ++ "/" ++ d1, d2) ∧
    ∃ line, parse_record brief row = .ok line ∧
      (∃ du, strptimeYY d2 = .ok du ∧ line.date_user = some du) ∧
      (brief = true → line.memo = Cell.str (g1 ++ "/" ++ d1)) := by
  have hcp := cardPattern_two_dates g1 d1 d2 hs1 hs2 hnl
  obtain ⟨memoS, line, hm, hpr, hsome, _⟩ := parse_record_memo_spec brief row hok
  have hms : memoS = g1 ++ "/" ++ d1 ++ "/" ++ d2 := by
    have hmm := hm.symm.trans hmemo
    simp only [Except.ok.injEq, Cell.str.injEq] at hmm
    exact hmm
  subst hms
  obtain ⟨hmeq, du, hdu, hduser⟩ := hsome (g1 ++ "/" ++ d1) d2 hcp
  refine ⟨hcp, line, hpr, ⟨du, hdu, hduser⟩, ?_⟩
  intro hb
  subst hb
  simpa using hmeq

/-- Witness for C9 at the two-date memo `A/14-01-01/14-12-31`. -/
theorem seb_card_greedy_last_occurrence_witness :
    (isDateShape ("14-01-01" : String).data = true ∧
     isDateShape ("14-12-31" : String).data = true ∧
     (∀ c ∈ ("A" : String).data, c ≠ '\n') ∧
     pyGet (rowTwoDates.take 5) 3 =
       .ok (Cell.str ("A" ++ "/" ++ "14-01-01" ++ "/" ++ "14-12-31")) ∧
     pyOk (parse_record true rowTwoDates) = true) ∧
    (cardPattern ("A" ++ "/" ++ "14-01-01" ++ "/" ++ "14-12-31") =
        some ("A" ++ "/" ++ "14-01-01", "14-12-31") ∧
     ∃ line, parse_record true rowTwoDates = .ok line ∧
       (∃ du, strptimeYY "14-12-31" = .ok du ∧ line.date_user = some du) ∧
       (true = true → line.memo = Cell.str ("A" ++ "/" ++ "14-01-01"))) :=
  ⟨⟨by decide, by decide, by decide, by decide, by decide⟩,
   seb_card_greedy_last_occurrence true rowTwoDates "A" "14-01-01" "14-12-31"
     (by decide) (by decide) (by decide) (by decide) (by decide)⟩

/-- C9 counterexample: with two date-shaped suffixes whose final one
is an impossible calendar date (month 13), the greedy capture still
targets the final suffix, whose parse fails — the whole record parse
errors in either mode and no `date_user` is set, while the claim
promises a `date_user` parsed from the final occurrence. -/
theorem seb_card_greedy_cex :
    cardPattern "A/14-01-01/14-13-31" = some ("A/14-01-01", "14-13-31") ∧
    parse_record true rowTwoDatesBad = .error .valueError ∧
    parse_record false rowTwoDatesBad = .error .valueError := by
  decide

/-- C5: the value-date cell (position 1) is parsed with the fixed
`%Y-%m-%d` format and its result is discarded: replacing it by a cell
whose date parse fails makes the whole record parse fail with exactly
that date-parse error, while replacing it by any cell whose date
parse succeeds leaves every field of the produced record unchanged. -/
theorem seb_value_date_parse_and_discard (brief : Bool) (row : List Cell)
    (c0 c1 : Cell) (d0 d1 : Date)
    (h0 : pyGet (row.take 5) 0 = .ok c0) (hd0 : parse_datetime c0 = .ok d0)
    (h1 : pyGet (row.take 5) 1 = .ok c1) (hd1 : parse_datetime c1 = .ok d1) :
    (∀ row2 c2 e, (∀ i, i ≠ 1 → pyGet (row2.take 5) i = pyGet (row.take 5) i) →
        pyGet (row2.take 5) 1 = .ok c2 → parse_datetime c2 = .error e →
        parse_record brief row2 = .error e) ∧
    (∀ row2 c2 d2, (∀ i, i ≠ 1 → pyGet (row2.take 5) i = pyGet (row.take 5) i) →
        pyGet (row2.take 5) 1 = .ok c2 → parse_datetime c2 = .ok d2 →
        parse_record brief row2 = parse_record brief row) := by
  constructor
  · intro row2 c2 e hag hg2 he2
    have e0 : pyGet (row2.take 5) 0 = .ok c0 := (hag 0 (by decide)).trans h0
    simp only [parse_record, e0, hd0, hg2, he2]
  · intro row2 c2 d2 hag hg2 hp2
    have e0 : pyGet (row2.take 5) 0 = .ok c0 := (hag 0 (by decide)).trans h0
    have e2 : pyGet (row2.take 5) 2 = pyGet (row.take 5) 2 := hag 2 (by decide)
    have e3 : pyGet (row2.take 5) 3 = pyGet (row.take 5) 3 := hag 3 (by decide)
    have e4 : pyGet (row2.take 5) 4 = pyGet (row.take 5) 4 := hag 4 (by decide)
    simp only [parse_record, e0, h0, hd0, hg2, hp2, h1, hd1, e2, e3, e4]

/-- Witness for C5 at a concrete well-formed data row. -/
theorem seb_value_date_parse_and_discard_witness :
    (pyGet (dataRow.take 5) 0 = .ok (Cell.str "2014-12-31") ∧
     parse_datetime (Cell.str "2014-12-31") = .ok ⟨2014, 12, 31⟩ ∧
     pyGet (dataRow.take 5) 1 = .ok (Cell.str "2014-12-30") ∧
     parse_datetime (Cell.str "2014-12-30") = .ok ⟨2014, 12, 30⟩) ∧
    ((∀ row2 c2 e, (∀ i, i ≠ 1 → pyGet (row2.take 5) i = pyGet (dataRow.take 5) i) →
        pyGet (row2.take 5) 1 = .ok c2 → parse_datetime c2 = .error e →
        parse_record false row2 = .error e) ∧
     (∀ row2 c2 d2, (∀ i, i ≠ 1 → pyGet (row2.take 5) i = pyGet (dataRow.take 5) i) →
        pyGet (row2.take 5) 1 = .ok c2 → parse_datetime c2 = .ok d2 →
        parse_record false row2 = parse_record false dataRow)) :=
  ⟨⟨by decide, by decide, by decide, by decide⟩,
   seb_value_date_parse_and_discard false dataRow (Cell.str "2014-12-31")
     (Cell.str "2014-12-30") ⟨2014, 12, 31⟩ ⟨2014, 12, 30⟩
     (by decide) (by decide) (by decide) (by decide)⟩

/-- C4: on every worksheet accepted by the validator, the header cell
of row index 4 is a string matched by the account pattern, and
`parse_statement` returns its captured group as `account_id` together
with the constants `SEB` and `SEK`. -/
theorem seb_parse_statement_header (ws : Worksheet) (h : validate ws = .ok ()) :
    ∃ s g, pyGet ((ws.take 8).getD 4 []) 0 = .ok (Cell.str s) ∧ matchAccount s = some g ∧
      parse_statement ws = .ok { account_id := g, bank_id := "SEB", currency := "SEK" } := by
  have hv : validateChecks ws = .ok () := by
    cases e : validateChecks ws with
    | ok u => cases u; rfl
    | error err => cases err <;> simp [validate, e] at h
  unfold validateChecks at hv
  dsimp only at hv
  by_cases h8 : (ws.take 8).length = 8
  case neg => rw [if_neg h8] at hv; cases hv
  rw [if_pos h8] at hv
  by_cases hall : ∀ row ∈ ws.take 8, row.length = 6
  case neg => rw [if_neg hall] at hv; cases hv
  rw [if_pos hall] at hv
  cases hg : pyGet ((ws.take 8).getD 4 []) 0 with
  | error e => rw [hg] at hv; simp at hv
  | ok c =>
    rw [hg] at hv
    cases c with
    | none => simp [reMatchAccount] at hv
    | num q => simp [reMatchAccount] at hv
    | str s =>
      simp only [reMatchAccount] at hv
      cases hmm : matchAccount s with
      | none => rw [hmm] at hv; simp at hv
      | some g =>
          refine ⟨s, g, rfl, hmm, ?_⟩
          unfold parse_statement
          dsimp only
          rw [if_pos h8, hg]
          simp only [reMatchAccount, hmm]

/-- Witness for C4 at the concrete accepted worksheet. -/
theorem seb_parse_statement_header_witness :
    validate wsGood = .ok () ∧
    (∃ s g, pyGet ((wsGood.take 8).getD 4 []) 0 = .ok (Cell.str s) ∧ matchAccount s = some g ∧
      parse_statement wsGood = .ok { account_id := g, bank_id := "SEB", currency := "SEK" }) :=
  ⟨by decide, seb_parse_statement_header wsGood (by decide)⟩

/-- C3 (amended): a worksheet with fewer than eight rows, or a
non-six-cell row among the first eight, fails validation with the
converted structural `ValueError`; the same holds for a non-empty row
index 5 or a mismatched header row index 7 provided the first cell of
the account row is a string (a non-string cell there raises
`TypeError` before those assertions run); in all cases construction
aborts and no statement summary is produced. -/
theorem seb_validate_structural_error (ws : Worksheet) (l : SettingVal) (b : Bool)
    (h : ws.length < 8
      ∨ (∃ row ∈ ws.take 8, row.length ≠ 6)
      ∨ ((∃ s, pyGet ((ws.take 8).getD 4 []) 0 = .ok (Cell.str s)) ∧
          ((ws.take 8).getD 5 [] ≠ List.replicate 6 Cell.none ∨
           (ws.take 8).getD 7 [] ≠ headerLabels))) :
    validate ws = .error .valueError ∧ seb_init ws l b = .error .valueError := by
  have hvc : validateChecks ws = .error .assertionError := by
    unfold validateChecks
    dsimp only
    by_cases h8 : (ws.take 8).length = 8
    case neg => rw [if_neg h8]
    case pos =>
      rw [if_pos h8]
      by_cases hall : ∀ row ∈ ws.take 8, row.length = 6
      case neg => rw [if_neg hall]
      case pos =>
        rw [if_pos hall]
        rcases h with hlt | ⟨row, hrm, hrl⟩ | ⟨⟨s, hs⟩, hbad⟩
        · exfalso
          rw [List.length_take] at h8
          omega
        · exact absurd (hall row hrm) hrl
        · rw [hs]
          simp only [reMatchAccount]
          by_cases hm : (matchAccount s).isSome = true
          case neg => rw [if_neg hm]
          case pos =>
            rw [if_pos hm]
            by_cases hd4 : ((ws.take 8).getD 4 []).drop 4 = [Cell.none, Cell.none]
            case neg => rw [if_neg hd4]
            case pos =>
              rw [if_pos hd4]
              rcases hbad with hb5 | hb7
              · rw [if_neg hb5]
              · by_cases h5 : (ws.take 8).getD 5 [] = List.replicate 6 Cell.none
                case neg => rw [if_neg h5]
                case pos => rw [if_pos h5, if_neg hb7]
  have hval : validate ws = .error .valueError := by simp [validate, hvc]
  exact ⟨hval, by simp [seb_init, hval]⟩

/-- Witness for C3 at a worksheet with only seven rows. -/
theorem seb_validate_structural_error_witness :
    (wsShort.length < 8 ∨ (∃ row ∈ wsShort.take 8, row.length ≠ 6) ∨
      ((∃ s, pyGet ((wsShort.take 8).getD 4 []) 0 = .ok (Cell.str s)) ∧
        ((wsShort.take 8).getD 5 [] ≠ List.replicate 6 Cell.none ∨
         (wsShort.take 8).getD 7 [] ≠ headerLabels))) ∧
    (validate wsShort = .error .valueError ∧
     seb_init wsShort (SettingVal.str "sv_SE") false = .error .valueError) :=
  ⟨Or.inl (by decide),
   seb_validate_structural_error wsShort (SettingVal.str "sv_SE") false (Or.inl (by decide))⟩

/-- C3 counterexample: a worksheet with eight six-cell rows, a
non-empty row index 5 and a mismatched header — conditions under
which the claim promises the converted structural error — but whose
account cell is absent, so validation raises `TypeError` instead of
the converted `ValueError`. -/
theorem seb_validate_structural_cex :
    ((wsNoneAccount.take 8).getD 5 [] ≠ List.replicate 6 Cell.none) ∧
    ((wsNoneAccount.take 8).getD 7 [] ≠ headerLabels) ∧
    validate wsNoneAccount = .error .typeError ∧
    validate wsNoneAccount ≠ .error .valueError := by
  decide

end SebModel
